import Mathlib

/-!
Verification of the gbfs-monitor collection/query core.

The TypeScript sources are shallowly embedded: each Lambda's pure decision
logic becomes a Lean function, the external store becomes an explicit list
of records threaded through the functions, thrown exceptions become
`Except`, and `Promise.allSettled` becomes a list of `Except` outcomes.
Times are integers: `Date.now()` values are milliseconds since epoch,
stored record timestamps are seconds since epoch (as in the code), and a
UTC calendar date string `YYYY-MM-DD` is represented by its day index
`floor(t / 86400000)`, which is in order-preserving bijection with the
date strings produced by `toISOString().split('T')[0]`.
-/

/-! ## Feed Normalizer (collector lambda, `collectProviderData`) -/

/-- A sub-feed entry of a GBFS discovery document (`GBFSFeed` in types.ts). -/
structure GBFSFeed where
  name : String
  url : String
deriving Repr, DecidableEq

/-- The `data` object of a feed-discovery document.  Each of the three
probed locations (`data.en.feeds`, `data.feeds`, `data.de.feeds`) is
`none` when the path is absent (JS `undefined`) and `some l` when a list
is present — including the present-but-empty list `some []`. -/
structure GBFSData where
  en_feeds : Option (List GBFSFeed)
  feeds : Option (List GBFSFeed)
  de_feeds : Option (List GBFSFeed)
deriving Repr, DecidableEq

/-- The feed-list probing of `collectProviderData`:
`let feeds = gbfsData.data.en?.feeds; if (!feeds) feeds = gbfsData.data.feeds;
if (!feeds) feeds = gbfsData.data.de?.feeds`.  A present list is truthy in
JS even when empty, so presence, not non-emptiness, decides. -/
def selectFeeds (d : GBFSData) : Option (List GBFSFeed) :=
  match d.en_feeds with
  | some fs => some fs
  | none =>
    match d.feeds with
    | some fs => some fs
    | none => d.de_feeds

/-- The selection rule as the claim states it (spec wording, for
comparison with `selectFeeds`): the first non-empty list wins. -/
def selectFeedsNonEmptyRule (d : GBFSData) : Option (List GBFSFeed) :=
  match d.en_feeds with
  | some (f :: fs) => some (f :: fs)
  | _ =>
    match d.feeds with
    | some (f :: fs) => some (f :: fs)
    | _ =>
      match d.de_feeds with
      | some (f :: fs) => some (f :: fs)
      | _ => none

/-- Typed per-provider failures of the Feed Normalizer. -/
inductive CollectError where
  | missingFeedList (provider : String)
  | missingRequiredFeed (provider : String)
deriving Repr, DecidableEq

/-- The probing step with its failure: `if (!feeds) throw new Error(...)`. -/
def locateFeedList (provider : String) (d : GBFSData) :
    Except CollectError (List GBFSFeed) :=
  match selectFeeds d with
  | some fs => Except.ok fs
  | none => Except.error (CollectError.missingFeedList provider)

/-- `feeds.find(f => f.name === n)?.url`. -/
def findFeedUrl (feeds : List GBFSFeed) (n : String) : Option String :=
  Option.map GBFSFeed.url (feeds.find? (fun f => f.name == n))

/-- One station-information entry (the fields the collector reads). -/
structure Station where
  station_id : String
  capacity : Int
deriving Repr, DecidableEq

/-- One station-status entry (the fields the collector reads). -/
structure StationStatus where
  station_id : String
  num_bikes_available : Int
  num_docks_available : Int
  is_installed : Bool
  is_renting : Bool
  is_returning : Bool
deriving Repr, DecidableEq

/-- The canonical statistics record (`BikeStats` in types.ts). -/
structure BikeStats where
  provider : String
  timestamp : Int
  total_stations : Int
  total_capacity : Int
  total_bikes_available : Int
  total_docks_available : Int
  active_stations : Int
deriving Repr, DecidableEq

/-- The running accumulators of the `forEach` join loop. -/
structure StatsAcc where
  total_bikes_available : Int
  total_docks_available : Int
  active_stations : Int
  total_capacity : Int
deriving Repr, DecidableEq

/-- `stationStatus.data.stations.find(s => s.station_id === station.station_id)`. -/
def findStatus (statuses : List StationStatus) (sid : String) :
    Option StationStatus :=
  statuses.find? (fun s => s.station_id == sid)

/-- `is_installed && is_renting && is_returning`. -/
def isActiveStatus (st : StationStatus) : Bool :=
  st.is_installed && st.is_renting && st.is_returning

/-- The body of the `forEach` over station-information entries: skip the
station when no status matches; otherwise add its capacity, and when it is
active also bump the active count and the bike/dock sums. -/
def processStation (statuses : List StationStatus) (acc : StatsAcc)
    (station : Station) : StatsAcc :=
  match findStatus statuses station.station_id with
  | none => acc
  | some status =>
    let acc1 :=
      if isActiveStatus status then
        { acc with
          active_stations := acc.active_stations + 1
          total_bikes_available :=
            acc.total_bikes_available + status.num_bikes_available
          total_docks_available :=
            acc.total_docks_available + status.num_docks_available }
      else acc
    { acc1 with total_capacity := acc1.total_capacity + station.capacity }

/-- The join-and-accumulate core of `collectProviderData`, applied to the
two fetched sub-feed bodies. -/
def collectStats (providerName : String) (timestamp : Int)
    (infoStations : List Station) (statusStations : List StationStatus) :
    BikeStats :=
  let acc := infoStations.foldl (processStation statusStations)
    { total_bikes_available := 0, total_docks_available := 0
      active_stations := 0, total_capacity := 0 }
  { provider := providerName
    timestamp := timestamp
    total_stations := (infoStations.length : Int)
    total_capacity := acc.total_capacity
    total_bikes_available := acc.total_bikes_available
    total_docks_available := acc.total_docks_available
    active_stations := acc.active_stations }

/-- The inner-joined (station, status) pairs, in information order:
exactly the stations the `forEach` body does not skip. -/
def matchedPairs (infoStations : List Station)
    (statusStations : List StationStatus) : List (Station × StationStatus) :=
  infoStations.filterMap
    (fun s => Option.map (fun st => (s, st)) (findStatus statusStations s.station_id))

/-- The matched pairs whose status is simultaneously installed, renting
and returning. -/
def activePairs (infoStations : List Station)
    (statusStations : List StationStatus) : List (Station × StationStatus) :=
  (matchedPairs infoStations statusStations).filter (fun p => isActiveStatus p.2)

/-! ## Collector handler (DynamoDB variant, `Promise.allSettled` batch) -/

/-- A provider configuration entry (`GBFSProvider`). -/
structure GBFSProvider where
  name : String
  url : String
deriving Repr, DecidableEq

/-- The value returned by one provider's async task: the object built in
the `try` branch on success, the object built in the `catch` branch on
error.  Both are ordinary return values, so the task's promise fulfills
either way. -/
inductive ProviderResult where
  | success (provider : String) (total_bikes : Int) (active_stations : Int)
      (timestamp : Int)
  | error (provider : String) (message : String)
deriving Repr, DecidableEq

/-- One provider's task inside `providers.map(async ...)`:
`try { stats = collectProviderData(p); storeStats(stats); return successObj }
catch (e) { return errorObj }`.  The effects of the external world are the
arguments: `collect` is the outcome of `collectProviderData` for a
provider and `store` the outcome of `storeStats` for a record.  Returns
the settled task (`Except.error` would be a rejected promise) together
with the list of records the task wrote to the table. -/
def providerTask (collect : GBFSProvider → Except String BikeStats)
    (store : BikeStats → Except String Unit) (p : GBFSProvider) :
    Except String ProviderResult × List BikeStats :=
  match collect p with
  | Except.error e => (Except.ok (ProviderResult.error p.name e), [])
  | Except.ok stats =>
    match store stats with
    | Except.error e => (Except.ok (ProviderResult.error p.name e), [])
    | Except.ok _ =>
      (Except.ok (ProviderResult.success p.name stats.total_bikes_available
        stats.active_stations stats.timestamp), [stats])

/-- `r.status === 'fulfilled'` on a settled promise. -/
def isFulfilled (r : Except String ProviderResult) : Bool :=
  match r with
  | Except.ok _ => true
  | Except.error _ => false

/-- `r.status === 'rejected'` on a settled promise. -/
def isRejected (r : Except String ProviderResult) : Bool :=
  match r with
  | Except.ok _ => false
  | Except.error _ => true

/-- The summary object of the collector response body. -/
structure CollectorSummary where
  total : Nat
  success : Nat
  failed : Nat
deriving Repr, DecidableEq

/-- The collector handler's happy path: settle all provider tasks, then
count `fulfilled` and `rejected` results.  Returns the summary, the
settled per-provider results, and every record written to the table. -/
def collectorRun (collect : GBFSProvider → Except String BikeStats)
    (store : BikeStats → Except String Unit) (providers : List GBFSProvider) :
    CollectorSummary × List (Except String ProviderResult) × List BikeStats :=
  let tasks := providers.map (providerTask collect store)
  let results := tasks.map Prod.fst
  let stored := (tasks.map Prod.snd).flatten
  ({ total := providers.length
     success := (results.filter isFulfilled).length
     failed := (results.filter isRejected).length },
   results, stored)

/-! ## Retention Sweeper (cleanup lambda) -/

/-- A key of the bike-stats table as the sweeper sees it: partition key
`provider_id`, sort key `timestamp` (written by `storeStats` in seconds
since epoch). -/
structure DBRecord where
  provider_id : String
  timestamp : Int
deriving Repr, DecidableEq

/-- `CONFIG.BATCH_SIZE`. -/
def SWEEP_BATCH_SIZE : Nat := 25

/-- `CONFIG.MAX_RETRIES`. -/
def SWEEP_MAX_RETRIES : Nat := 3

/-- Fuel-indexed body of `chunkArray`; the fuel is the list length, which
suffices for any chunk size ≥ 1. -/
def chunkGo (size : Nat) : Nat → List DBRecord → List (List DBRecord)
  | _, [] => []
  | 0, _ => []
  | fuel + 1, x :: xs => (x :: xs).take size :: chunkGo size fuel ((x :: xs).drop size)

/-- `chunkArray(array, size)`: split into consecutive chunks of `size`. -/
def chunkArray (l : List DBRecord) (size : Nat) : List (List DBRecord) :=
  chunkGo size l.length l

/-- The retry loop of `deleteItemsBatch`.  `respond` is the store's
`BatchWriteCommand` behaviour: from the requested delete keys to the
unprocessed subset.  The loop sends while retries < MAX_RETRIES, stops as
soon as nothing is unprocessed, and throws a `CleanupError` after
MAX_RETRIES sends that all left work unprocessed. -/
def batchDeleteGo (respond : List DBRecord → List DBRecord) :
    Nat → List DBRecord → Except String Unit
  | 0, _ => Except.error "Max retries reached for batch delete"
  | n + 1, unprocessed =>
    let result := respond unprocessed
    if result.isEmpty then Except.ok () else batchDeleteGo respond n result

/-- `deleteItemsBatch(tableName, items)` with the store behaviour as a
parameter. -/
def deleteItemsBatch (respond : List DBRecord → List DBRecord)
    (items : List DBRecord) : Except String Unit :=
  batchDeleteGo respond SWEEP_MAX_RETRIES items

/-- The sweeper's query for one provider: every item with this
`provider_id` and `timestamp < cutoff` (the paging loop of
`cleanupProviderData` accumulates exactly this set). -/
def queryOldItems (table : List DBRecord) (pid : String) (cutoff : Int) :
    List DBRecord :=
  table.filter (fun r => r.provider_id == pid && decide (r.timestamp < cutoff))

/-- Delete a batch's keys from the table (deleting an absent key is a
no-op). -/
def removeBatch (table : List DBRecord) (batch : List DBRecord) : List DBRecord :=
  table.filter (fun r => !(batch.contains r))

/-- `cleanupProviderData(tableName, providerId, cutoffTime)`: query the
provider's old items, chunk them into batches of 25, and delete batch by
batch; a batch that exhausts its retries throws, abandoning the provider's
sweep.  Returns the table after the deletions. -/
def cleanupProviderData (respond : List DBRecord → List DBRecord)
    (table : List DBRecord) (pid : String) (cutoff : Int) :
    Except String (List DBRecord) :=
  let old := queryOldItems table pid cutoff
  (chunkArray old SWEEP_BATCH_SIZE).foldlM
    (fun t batch => do
      let _ ← deleteItemsBatch respond batch
      pure (removeBatch t batch))
    table

/-- The handler's `for (const provider of providers) await
cleanupProviderData(...)` loop.  Returns the providers whose sweep was
attempted, in order, and either the final table or the error that escaped
the loop. -/
def sweepProviders (respond : List DBRecord → List DBRecord) (cutoff : Int) :
    List GBFSProvider → List DBRecord →
    List String × Except String (List DBRecord)
  | [], table => ([], Except.ok table)
  | p :: ps, table =>
    match cleanupProviderData respond table p.name cutoff with
    | Except.ok t =>
      let rest := sweepProviders respond cutoff ps t
      (p.name :: rest.1, rest.2)
    | Except.error e => ([p.name], Except.error e)

/-- `cutoffTime = Date.now() - retentionDays * 24 * 60 * 60 * 1000`
(milliseconds). -/
def sweepCutoff (nowMs : Int) (retentionDays : Int) : Int :=
  nowMs - retentionDays * 24 * 60 * 60 * 1000

/-- The cleanup handler: compute the millisecond cutoff, sweep each
provider in turn, and on success answer with `providersProcessed`.  An
error escaping the loop is rethrown as a `CleanupError`, so the remaining
providers' table state is the state at the failure. -/
def sweeperHandler (respond : List DBRecord → List DBRecord) (nowMs : Int)
    (retentionDays : Int) (providers : List GBFSProvider)
    (table : List DBRecord) : Except String (List DBRecord × Nat) :=
  match sweepProviders respond (sweepCutoff nowMs retentionDays) providers table with
  | (_, Except.ok t) => Except.ok (t, providers.length)
  | (_, Except.error e) => Except.error ("Failed to complete cleanup process: " ++ e)

/-- A store that processes every batch write in full (no unprocessed
items): the normal path. -/
def respondAllProcessed : List DBRecord → List DBRecord := fun _ => []

/-! ## Query & Fan-out service (websocket lambda) -/

/-- Milliseconds in one UTC day. -/
def msPerDay : Int := 24 * 60 * 60 * 1000

/-- `getDateString(timestamp)`: the UTC calendar date of a millisecond
timestamp, represented by its day index `floor(t / 86400000)`. -/
def getDateString (tMs : Int) : Int := Int.fdiv tMs msPerDay

/-- The successive `currentTime` values visited by the `while` loop of
`getDatesBetween`, mapped through `getDateString`: `n` iterations starting
at `cur`, stepping by one day in milliseconds. -/
def datesFrom : Nat → Int → List Int
  | 0, _ => []
  | n + 1, cur => getDateString cur :: datesFrom n (cur + msPerDay)

/-- `getDatesBetween(startTime, endTime)`: the loop runs while
`currentTime <= endTime`, i.e. `floor((endTime - startTime) / msPerDay) + 1`
times when `startTime <= endTime` and not at all otherwise; the JS `Set`
keeps first occurrences. -/
def getDatesBetween (startTime endTime : Int) : List Int :=
  if startTime ≤ endTime then
    (datesFrom ((endTime - startTime).toNat / 86400000 + 1) startTime).eraseDups
  else []

/-- The UTC calendar dates touched by the closed interval
`[startTime, endTime]`, as the claim defines them: every day index from
the start's date to the end's date. -/
def touchedDates (startTime endTime : Int) : List Int :=
  if startTime ≤ endTime then
    (List.range ((getDateString endTime - getDateString startTime).toNat + 1)).map
      (fun k => getDateString startTime + k)
  else []

/-- A row of the bike-stats table as the date-partitioned index returns it
(`BikeStatsResponse` plus the `date` partition attribute `storeStats`
writes: the day index of `timestamp * 1000`). -/
structure StoredStat where
  provider_id : String
  timestamp : Int
  date : Int
  total_stations : Int
  total_capacity : Int
  total_bikes_available : Int
  total_docks_available : Int
  active_stations : Int
deriving Repr, DecidableEq

/-- One secondary-index query: the key condition
`#date = :date AND #ts BETWEEN :start AND :end` with `:start` and `:end`
the second-precision bounds. -/
def queryDatePartition (table : List StoredStat) (d : Int)
    (startSec endSec : Int) : List StoredStat :=
  table.filter (fun r =>
    r.date == d && decide (startSec ≤ r.timestamp) && decide (r.timestamp ≤ endSec))

/-- Insert a record into a list sorted by `timestamp`. -/
def insertByTs (r : StoredStat) : List StoredStat → List StoredStat
  | [] => [r]
  | x :: xs =>
    if r.timestamp ≤ x.timestamp then r :: x :: xs else x :: insertByTs r xs

/-- The final `allResults.sort` comparing by `timestamp`: a sort by
non-decreasing `timestamp`, modelled as insertion sort. -/
def sortByTs (l : List StoredStat) : List StoredStat :=
  l.foldr insertByTs []

/-- `getBikeStats(startDateIso, endDateIso)`: default the window to the
trailing hour, enumerate the dates, issue one index query per date in
order, concatenate, and sort by timestamp.  `startDateMs` and `endDateMs`
are the parsed `new Date(iso).getTime()` values, `none` when the field was
absent. -/
def getBikeStats (table : List StoredStat) (startDateMs endDateMs : Option Int)
    (nowMs : Int) : List StoredStat :=
  let startTimestamp := startDateMs.getD (nowMs - 60 * 60 * 1000)
  let endTimestamp := endDateMs.getD nowMs
  let dates := getDatesBetween startTimestamp endTimestamp
  let allResults := dates.foldl
    (fun acc d =>
      acc ++ queryDatePartition table d
        (Int.fdiv startTimestamp 1000) (Int.fdiv endTimestamp 1000))
    []
  sortByTs allResults

/-- The outcome of parsing the event body with `JSON.parse`: either the
parse threw (malformed JSON, with its error message), or it produced an
object whose relevant fields are an optional `action` string and the
optional date bounds (already converted to milliseconds). -/
inductive ParsedBody where
  | malformed (message : String)
  | parsed (action : Option String) (startDateMs : Option Int)
      (endDateMs : Option Int)
deriving Repr, DecidableEq

/-- A message pushed to the requesting connection. -/
inductive Push where
  | bikeStats (data : List StoredStat)
  | errorMsg (message : String)
deriving Repr, DecidableEq

/-- `handleMessage`: the body is parsed before the `try` block, so a
malformed body throws past the handler with no push.  Inside the `try`, an
action other than `getBikeStats` throws and is caught, producing a typed
error push; otherwise the stats are queried and pushed as a typed
`bikeStats` message.  Returns the pushes performed, in order, and the
exception that escaped, if any. -/
def handleMessage (table : List StoredStat) (nowMs : Int) (body : ParsedBody) :
    List Push × Option String :=
  match body with
  | ParsedBody.malformed e => ([], some e)
  | ParsedBody.parsed action startDateMs endDateMs =>
    if action == some "getBikeStats" then
      ([Push.bikeStats (getBikeStats table startDateMs endDateMs nowMs)], none)
    else
      ([Push.errorMsg "Invalid action"], none)

/-! ## Latest-snapshot point read (realtime lambda) -/

/-- The parsed body of one provider's latest-snapshot object (opaque here:
the handler only parses and forwards it). -/
structure SnapshotData where
  payload : String
deriving Repr, DecidableEq

/-- One provider's fetch task in the realtime handler: get the snapshot
object, read its body, and parse it, returning `null` when the get threw
(`s3get` gives `Except.error`), the body was undefined (`ok none`) or
empty (falsy), or the parse threw — the surrounding `try/catch` converts
every failure into `null`. -/
def fetchProviderSnapshot (s3get : String → Except String (Option String))
    (parse : String → Except String SnapshotData) (provider : String) :
    Option SnapshotData :=
  match s3get provider with
  | Except.error _ => none
  | Except.ok none => none
  | Except.ok (some body) =>
    if body == "" then none
    else
      match parse body with
      | Except.ok v => some v
      | Except.error _ => none

/-- The realtime handler's response body. -/
structure RealtimeResponse where
  statusCode : Int
  providers : List SnapshotData
deriving Repr, DecidableEq

/-- The realtime handler: fetch every provider's snapshot (each task
returns `null` on its own failure, so the joined fetch never rejects),
drop the `null`s with `providerData.filter(Boolean)`, and answer 200. -/
def realtimeHandler (s3get : String → Except String (Option String))
    (parse : String → Except String SnapshotData) (providers : List String) :
    RealtimeResponse :=
  { statusCode := 200
    providers := (providers.map (fetchProviderSnapshot s3get parse)).filterMap id }

/-! ## Helper lemmas and claim theorems -/

/-- Sum of `capacity` over the matched stations. -/
def sumMatchedCapacity (info : List Station) (sts : List StationStatus) : Int :=
  ((matchedPairs info sts).map (fun p => p.1.capacity)).sum

/-- Sum of `num_bikes_available` over the active matched stations. -/
def sumActiveBikes (info : List Station) (sts : List StationStatus) : Int :=
  ((activePairs info sts).map (fun p => p.2.num_bikes_available)).sum

/-- Sum of `num_docks_available` over the active matched stations. -/
def sumActiveDocks (info : List Station) (sts : List StationStatus) : Int :=
  ((activePairs info sts).map (fun p => p.2.num_docks_available)).sum

/-- The accumulation loop computes the inner-join sums: capacity over all
matched stations, bikes, docks and the count over the active ones. -/
theorem statsFold_characterization (sts : List StationStatus) :
    ∀ (info : List Station) (acc : StatsAcc),
    info.foldl (processStation sts) acc =
      { total_bikes_available := acc.total_bikes_available + sumActiveBikes info sts
        total_docks_available := acc.total_docks_available + sumActiveDocks info sts
        active_stations := acc.active_stations + ((activePairs info sts).length : Int)
        total_capacity := acc.total_capacity + sumMatchedCapacity info sts } := by
  intro info
  induction info with
  | nil =>
    intro acc
    simp [matchedPairs, activePairs, sumActiveBikes, sumActiveDocks, sumMatchedCapacity]
  | cons s rest ih =>
    intro acc
    simp only [List.foldl_cons]
    rw [ih]
    cases h : findStatus sts s.station_id with
    | none =>
      simp [processStation, h, matchedPairs, activePairs, sumActiveBikes,
        sumActiveDocks, sumMatchedCapacity, List.filterMap_cons]
    | some st =>
      by_cases ha : isActiveStatus st
      · simp [processStation, h, ha, matchedPairs, activePairs, sumActiveBikes,
          sumActiveDocks, sumMatchedCapacity, List.filterMap_cons]
        refine ⟨by omega, by omega, by omega, by omega⟩
      · simp [processStation, h, ha, matchedPairs, activePairs, sumActiveBikes,
          sumActiveDocks, sumMatchedCapacity, List.filterMap_cons]
        omega

/-- Station-information list of end-to-end scenario 1: capacities 10
and 8. -/
def exampleInfoStations : List Station :=
  [{ station_id := "s1", capacity := 10 }, { station_id := "s2", capacity := 8 }]

/-- Station-status list of end-to-end scenario 1: station s1 fully active
with 3 bikes and 5 docks, station s2 matched but not installed. -/
def exampleStatusStations : List StationStatus :=
  [{ station_id := "s1", num_bikes_available := 3, num_docks_available := 5
     is_installed := true, is_renting := true, is_returning := true },
   { station_id := "s2", num_bikes_available := 4, num_docks_available := 2
     is_installed := false, is_renting := true, is_returning := true }]

/-- C6: for every pair of station-information and station-status lists the
emitted record has total_stations equal to the count of information
entries, total_capacity summed over all matched stations, and the active
count and bike/dock sums taken only over matched stations whose status is
simultaneously installed, renting and returning; on the two-station
example (one active with bikes 3, docks 5, capacity 10; one inactive with
capacity 8) it yields exactly the claimed totals. -/
theorem collectStats_spec_accumulation :
    (∀ (name : String) (ts : Int) (info : List Station)
       (sts : List StationStatus),
       collectStats name ts info sts =
         { provider := name
           timestamp := ts
           total_stations := (info.length : Int)
           total_capacity := sumMatchedCapacity info sts
           total_bikes_available := sumActiveBikes info sts
           total_docks_available := sumActiveDocks info sts
           active_stations := ((activePairs info sts).length : Int) }) ∧
    collectStats "berlin" 100 exampleInfoStations exampleStatusStations =
      { provider := "berlin", timestamp := 100, total_stations := 2
        total_capacity := 18, total_bikes_available := 3
        total_docks_available := 5, active_stations := 1 } := by
  constructor
  · intro name ts info sts
    simp [collectStats, statsFold_characterization]
  · rfl

/-- C9: every emitted record satisfies the invariant active_stations ≤
total_stations, a station counting as active only when installed, renting
and returning simultaneously. -/
theorem collectStats_active_le_total (name : String) (ts : Int)
    (info : List Station) (sts : List StationStatus) :
    (collectStats name ts info sts).active_stations ≤
      (collectStats name ts info sts).total_stations := by
  simp only [collectStats, statsFold_characterization]
  have h1 : (activePairs info sts).length ≤ (matchedPairs info sts).length :=
    List.length_filter_le _ _
  have h2 : (matchedPairs info sts).length ≤ info.length :=
    List.length_filterMap_le _ _
  omega

/-- Discovery document with a present-but-empty data.en.feeds and a
usable flat data.feeds list holding both required sub-feeds. -/
def exampleDiscoveryDoc : GBFSData :=
  { en_feeds := some []
    feeds := some [{ name := "station_information", url := "u1" },
                   { name := "station_status", url := "u2" }]
    de_feeds := none }

/-- C5 counterexample: on a document whose data.en.feeds is present but
empty while data.feeds is non-empty, the code keeps the empty list (an
empty array is truthy in JS), so the first non-empty list does not win as
the claim states. -/
theorem selectFeeds_not_first_nonempty :
    selectFeeds exampleDiscoveryDoc = some [] ∧
    selectFeedsNonEmptyRule exampleDiscoveryDoc =
      some [{ name := "station_information", url := "u1" },
            { name := "station_status", url := "u2" }] ∧
    selectFeeds exampleDiscoveryDoc ≠ selectFeedsNonEmptyRule exampleDiscoveryDoc ∧
    locateFeedList "berlin" exampleDiscoveryDoc = Except.ok [] := by
  refine ⟨rfl, rfl, ?_, rfl⟩
  decide

/-- C5 amended: the three locations are checked in order and the first
present list wins, even when empty; only when all three are absent does
the normalizer fail with the MissingFeedList-typed error. -/
theorem locateFeedList_first_present (p : String) (d : GBFSData) :
    locateFeedList p d =
      match d.en_feeds, d.feeds, d.de_feeds with
      | some l, _, _ => Except.ok l
      | none, some l, _ => Except.ok l
      | none, none, some l => Except.ok l
      | none, none, none => Except.error (CollectError.missingFeedList p) := by
  obtain ⟨e, f, g⟩ := d
  cases e <;> cases f <;> cases g <;> rfl

/-- Record aged 3 days for nowSec = 1700000000 (timestamps in seconds, as
storeStats writes them). -/
def rec3day : DBRecord := { provider_id := "careem_bike", timestamp := 1699740800 }

/-- Record aged 10 days for nowSec = 1700000000. -/
def rec10day : DBRecord := { provider_id := "careem_bike", timestamp := 1699136000 }

/-- C1: with RETENTION_DAYS = 5 at nowMs = 1700000000000, the sweep
deletes both the 3-day-old and the 10-day-old record, because the cutoff
is computed in milliseconds while the stored timestamps are in seconds;
the 3-day-old record is not older than the claimed cutoff
nowSec - 5 days, yet it is deleted. -/
theorem sweeper_ms_cutoff_deletes_fresh :
    sweeperHandler respondAllProcessed 1700000000000 5
      [{ name := "careem_bike", url := "u" }] [rec3day, rec10day] =
      Except.ok ([], 1) ∧
    rec3day.timestamp ≥ 1700000000 - 5 * 24 * 60 * 60 ∧
    rec10day.timestamp < 1700000000 - 5 * 24 * 60 * 60 := by
  refine ⟨rfl, by decide, by decide⟩

/-- A task whose provider collects successfully never settles as
rejected: its errors are caught inside the task and returned as values. -/
theorem providerTask_always_fulfilled (c : GBFSProvider → Except String BikeStats)
    (s : BikeStats → Except String Unit) (p : GBFSProvider) :
    isFulfilled (providerTask c s p).1 = true := by
  cases hc : c p with
  | error e => simp [providerTask, isFulfilled, hc]
  | ok stats =>
    cases hs : s stats with
    | error e => simp [providerTask, isFulfilled, hc, hs]
    | ok u => simp [providerTask, isFulfilled, hc, hs]

/-- A fulfilled settled promise is not rejected. -/
theorem isRejected_of_fulfilled (r : Except String ProviderResult)
    (h : isFulfilled r = true) : isRejected r = false := by
  cases r with
  | ok v => rfl
  | error e => exact absurd h (by simp [isFulfilled])

/-- The collector summary counts settled promises, and every provider
task fulfills, so the summary is total = N, success = N, failed = 0
regardless of per-provider outcomes. -/
theorem collectorRun_counts (c : GBFSProvider → Except String BikeStats)
    (s : BikeStats → Except String Unit) (providers : List GBFSProvider) :
    (collectorRun c s providers).1 =
      { total := providers.length, success := providers.length, failed := 0 } := by
  have hall : ∀ r ∈ (providers.map (providerTask c s)).map Prod.fst,
      isFulfilled r = true := by
    intro r hr
    simp only [List.mem_map] at hr
    obtain ⟨t, ⟨p, hp, rfl⟩, rfl⟩ := hr
    exact providerTask_always_fulfilled c s p
  have hfil : ((providers.map (providerTask c s)).map Prod.fst).filter isFulfilled
      = (providers.map (providerTask c s)).map Prod.fst :=
    List.filter_eq_self.2 hall
  have hrej : ((providers.map (providerTask c s)).map Prod.fst).filter isRejected
      = [] := by
    rw [List.filter_eq_nil_iff]
    intro a ha
    simp [isRejected_of_fulfilled a (hall a ha)]
  rw [List.map_map] at hfil hrej
  simp only [collectorRun, List.map_map]
  rw [hfil, hrej]
  simp

/-- Provider A of end-to-end scenario 2 (succeeds). -/
def providerA : GBFSProvider := { name := "A", url := "https://a.example/gbfs.json" }

/-- Provider B of end-to-end scenario 2 (DNS failure). -/
def providerB : GBFSProvider := { name := "B", url := "https://b.example/gbfs.json" }

/-- The record provider A yields in scenario 2. -/
def statsA : BikeStats :=
  { provider := "A", timestamp := 100, total_stations := 2, total_capacity := 18
    total_bikes_available := 3, total_docks_available := 5, active_stations := 1 }

/-- Scenario 2 feed outcomes: A collects statsA, B fails with a DNS
error. -/
def scenario2Collect : GBFSProvider → Except String BikeStats := fun p =>
  if p.name == "A" then Except.ok statsA
  else Except.error "getaddrinfo ENOTFOUND b.example"

/-- Scenario 2 store: every write succeeds. -/
def scenario2Store : BikeStats → Except String Unit := fun _ => Except.ok ()

/-- C2: the summary always reports success = N and failed = 0, whatever
the per-provider outcomes, because it counts fulfilled and rejected
settled promises and each task catches its own error and fulfills; on the
scenario with A succeeding and B failing, the summary is
total 2, success 2, failed 0 instead of the claimed success 1, failed 1,
though B is reported as an error in the per-provider results and storage
receives exactly the one record of A. -/
theorem collector_summary_ignores_provider_errors :
    (∀ (collect : GBFSProvider → Except String BikeStats)
       (store : BikeStats → Except String Unit)
       (providers : List GBFSProvider),
       (collectorRun collect store providers).1 =
         { total := providers.length, success := providers.length, failed := 0 }) ∧
    (collectorRun scenario2Collect scenario2Store [providerA, providerB]).1 =
      { total := 2, success := 2, failed := 0 } ∧
    (collectorRun scenario2Collect scenario2Store [providerA, providerB]).2.1 =
      [Except.ok (ProviderResult.success "A" 3 1 100),
       Except.ok (ProviderResult.error "B" "getaddrinfo ENOTFOUND b.example")] ∧
    (collectorRun scenario2Collect scenario2Store [providerA, providerB]).2.2 =
      [statsA] := by
  refine ⟨collectorRun_counts, rfl, rfl, rfl⟩

/-- Sweep store behaviour that never processes delete requests of
provider A: the batch delete for A exhausts its retries. -/
def respondFailProviderA : List DBRecord → List DBRecord := fun items =>
  items.filter (fun r => r.provider_id == "A")

/-- One old record per provider, both older than any positive cutoff. -/
def sweepTableAB : List DBRecord :=
  [{ provider_id := "A", timestamp := 10 }, { provider_id := "B", timestamp := 20 }]

/-- C7 counterexample: when the batch delete for provider A exhausts its
retries, the sweep of provider B is never attempted — the attempted list
is exactly A and the loop aborts with the max-retries error. -/
theorem sweep_error_stops_remaining_providers :
    sweepProviders respondFailProviderA 1000
      [{ name := "A", url := "ua" }, { name := "B", url := "ub" }] sweepTableAB =
      (["A"], Except.error "Max retries reached for batch delete") ∧
    "B" ∉ (sweepProviders respondFailProviderA 1000
      [{ name := "A", url := "ua" }, { name := "B", url := "ub" }] sweepTableAB).1 := by
  refine ⟨rfl, ?_⟩
  decide

/-- C7 amended: a fatal error while sweeping one provider aborts the
whole run — the remaining providers are not attempted and the error
escapes the loop. -/
theorem sweepProviders_aborts_at_error (respond : List DBRecord → List DBRecord)
    (cutoff : Int) (p : GBFSProvider) (ps : List GBFSProvider)
    (table : List DBRecord) (e : String)
    (h : cleanupProviderData respond table p.name cutoff = Except.error e) :
    sweepProviders respond cutoff (p :: ps) table = ([p.name], Except.error e) := by
  simp [sweepProviders, h]

/-- Witness for the C7 amended theorem at the concrete failing store. -/
theorem sweepProviders_aborts_at_error_witness :
    sweepProviders respondFailProviderA 1000
      [{ name := "A", url := "ua" }, { name := "B", url := "ub" }] sweepTableAB =
      (["A"], Except.error "Max retries reached for batch delete") :=
  sweepProviders_aborts_at_error respondFailProviderA 1000
    { name := "A", url := "ua" } [{ name := "B", url := "ub" }] sweepTableAB
    "Max retries reached for batch delete" rfl

/-- C3 counterexample: a body that is not valid JSON is parsed before the
try block, so the parse exception escapes with zero pushes performed —
not the exactly-one push the claim states for any body. -/
theorem malformed_body_pushes_nothing :
    (handleMessage [] 0 (ParsedBody.malformed "Unexpected end of JSON input")).1 = [] ∧
    (handleMessage [] 0 (ParsedBody.malformed "Unexpected end of JSON input")).2 =
      some "Unexpected end of JSON input" ∧
    (handleMessage [] 0 (ParsedBody.malformed "Unexpected end of JSON input")).1.length ≠ 1 := by
  exact ⟨rfl, rfl, by decide⟩

/-- C3 amended: for every message whose body parses as JSON — missing
fields and wrong actions included — the handler performs exactly one push,
a typed bikeStats success or a typed error, and throws nothing; a
malformed body however performs no push and lets the parse error escape
the message handler. -/
theorem handleMessage_one_push_when_parsed (table : List StoredStat) (nowMs : Int)
    (action : Option String) (sd ed : Option Int) :
    (handleMessage table nowMs (ParsedBody.parsed action sd ed)).2 = none ∧
    ((handleMessage table nowMs (ParsedBody.parsed action sd ed)).1 =
       [Push.bikeStats (getBikeStats table sd ed nowMs)] ∨
     (handleMessage table nowMs (ParsedBody.parsed action sd ed)).1 =
       [Push.errorMsg "Invalid action"]) ∧
    (∀ e, handleMessage table nowMs (ParsedBody.malformed e) = ([], some e)) := by
  by_cases h : action == some "getBikeStats"
  · exact ⟨by simp [handleMessage, h], Or.inl (by simp [handleMessage, h]), fun e => rfl⟩
  · refine ⟨by simp [handleMessage, h], Or.inr ?_, fun e => rfl⟩
    simp [handleMessage, h]

/-- An in-window record on the second touched date of the C4 window:
1970-01-02T00:30Z, stored with its date partition. -/
def recSecondDate : StoredStat :=
  { provider_id := "p", timestamp := 88200, date := 1, total_stations := 1
    total_capacity := 1, total_bikes_available := 1, total_docks_available := 1
    active_stations := 1 }

/-- C4: for the window 1970-01-01T13:00Z to 1970-01-02T12:00Z the code
enumerates only the first date although the closed interval touches two —
the loop steps a full day from startTime and exits before reaching the
second date — so a record on the second date lying inside the window is
never returned even though its timestamp is within the query bounds. -/
theorem getDatesBetween_misses_touched_date :
    getDatesBetween 46800000 129600000 = [0] ∧
    touchedDates 46800000 129600000 = [0, 1] ∧
    (1 : Int) ∈ touchedDates 46800000 129600000 ∧
    (1 : Int) ∉ getDatesBetween 46800000 129600000 ∧
    getBikeStats [recSecondDate] (some 46800000) (some 129600000) 0 = [] ∧
    46800 ≤ recSecondDate.timestamp ∧ recSecondDate.timestamp ≤ 129600 ∧
    recSecondDate.date = getDateString (recSecondDate.timestamp * 1000) := by
  refine ⟨rfl, by decide, by decide, by decide, rfl, by decide, by decide, by decide⟩

/-- Sorted non-decreasing by timestamp. -/
def TsSorted (l : List StoredStat) : Prop :=
  List.Pairwise (fun a b => a.timestamp ≤ b.timestamp) l

/-- Membership after insertion: the inserted element or an old one. -/
theorem mem_insertByTs (r x : StoredStat) (l : List StoredStat)
    (h : x ∈ insertByTs r l) : x = r ∨ x ∈ l := by
  induction l with
  | nil => simpa [insertByTs] using h
  | cons y ys ih =>
    by_cases hle : r.timestamp ≤ y.timestamp
    · simp only [insertByTs, if_pos hle, List.mem_cons] at h
      rcases h with h | h | h
      · exact Or.inl h
      · exact Or.inr (by simp [h])
      · exact Or.inr (by simp [h])
    · simp only [insertByTs, if_neg hle, List.mem_cons] at h
      rcases h with h | h
      · exact Or.inr (by simp [h])
      · rcases ih h with h1 | h1
        · exact Or.inl h1
        · exact Or.inr (by simp [h1])

/-- Insertion into a timestamp-sorted list keeps it sorted. -/
theorem tsSorted_insertByTs (r : StoredStat) (l : List StoredStat)
    (h : TsSorted l) : TsSorted (insertByTs r l) := by
  induction l with
  | nil => simp [insertByTs, TsSorted]
  | cons y ys ih =>
    rcases h with _ | ⟨hy, hys⟩
    by_cases hle : r.timestamp ≤ y.timestamp
    · simp only [insertByTs, if_pos hle]
      refine List.Pairwise.cons ?_ (List.Pairwise.cons hy hys)
      intro z hz
      rcases List.mem_cons.1 hz with rfl | hz1
      · exact hle
      · exact le_trans hle (hy _ hz1)
    · simp only [insertByTs, if_neg hle]
      refine List.Pairwise.cons ?_ (ih hys)
      intro z hz
      rcases mem_insertByTs r z ys hz with rfl | hz1
      · exact le_of_not_le hle
      · exact hy _ hz1

/-- The sort of the query service produces a timestamp-sorted list. -/
theorem tsSorted_sortByTs (l : List StoredStat) : TsSorted (sortByTs l) := by
  induction l with
  | nil => simp [sortByTs, TsSorted]
  | cons x xs ih => exact tsSorted_insertByTs x _ ih

/-- A date-partition query over a table with nothing in the window is
empty. -/
theorem queryDatePartition_empty_of_no_match (table : List StoredStat)
    (d startSec endSec : Int)
    (h : ∀ r ∈ table, ¬ (startSec ≤ r.timestamp ∧ r.timestamp ≤ endSec)) :
    queryDatePartition table d startSec endSec = [] := by
  rw [queryDatePartition, List.filter_eq_nil_iff]
  intro r hr
  simp only [Bool.and_eq_true, decide_eq_true_eq, not_and]
  intro hdate hstart
  exact h r hr ⟨hdate.2, hstart⟩

/-- Folding empty query results accumulates nothing. -/
theorem foldl_append_queries_empty (q : Int → List StoredStat)
    (hq : ∀ d, q d = []) :
    ∀ (dates : List Int) (acc : List StoredStat),
    dates.foldl (fun acc d => acc ++ q d) acc = acc := by
  intro dates
  induction dates with
  | nil => intro acc; rfl
  | cons d ds ih =>
    intro acc
    rw [List.foldl_cons]
    have hstep : acc ++ q d = acc := by rw [hq, List.append_nil]
    rw [hstep]
    exact ih acc

/-- C8: for every getBikeStats request the single push carries the query
result, that result is sorted non-decreasing by timestamp, and a window
containing no stored records yields an empty-array bikeStats push with no
error and nothing thrown. -/
theorem query_pushes_sorted_and_empty_window_succeeds
    (table : List StoredStat) (sd ed : Option Int) (nowMs : Int) :
    (handleMessage table nowMs (ParsedBody.parsed (some "getBikeStats") sd ed)).1 =
      [Push.bikeStats (getBikeStats table sd ed nowMs)] ∧
    TsSorted (getBikeStats table sd ed nowMs) ∧
    ((∀ r ∈ table,
        ¬ (Int.fdiv (sd.getD (nowMs - 60 * 60 * 1000)) 1000 ≤ r.timestamp ∧
           r.timestamp ≤ Int.fdiv (ed.getD nowMs) 1000)) →
      handleMessage table nowMs (ParsedBody.parsed (some "getBikeStats") sd ed) =
        ([Push.bikeStats []], none)) := by
  refine ⟨by simp [handleMessage], ?_, ?_⟩
  · simp only [getBikeStats]
    exact tsSorted_sortByTs _
  · intro h
    have hq : ∀ d, queryDatePartition table d
        (Int.fdiv (sd.getD (nowMs - 60 * 60 * 1000)) 1000)
        (Int.fdiv (ed.getD nowMs) 1000) = [] := fun d =>
      queryDatePartition_empty_of_no_match table d _ _ h
    simp only [handleMessage, beq_self_eq_true, if_pos]
    have hempty : getBikeStats table sd ed nowMs = [] := by
      simp only [getBikeStats]
      rw [foldl_append_queries_empty _ hq]
      rfl
    rw [hempty]

/-- Witness for C8 on a concrete empty table and window. -/
theorem query_empty_window_witness :
    handleMessage [] 0 (ParsedBody.parsed (some "getBikeStats") (some 0) (some 1000)) =
      ([Push.bikeStats []], none) :=
  (query_pushes_sorted_and_empty_window_succeeds [] (some 0) (some 1000) 0).2.2
    (by simp)

/-- Dropping a provider whose fetch yields nothing does not change the
joined snapshot list. -/
theorem filterMap_map_skip_none (f : String → Option SnapshotData) (p : String)
    (hf : f p = none) :
    ∀ l : List String,
    (l.map f).filterMap id = ((l.filter (fun q => q ≠ p)).map f).filterMap id := by
  intro l
  induction l with
  | nil => rfl
  | cons q qs ih =>
    by_cases hq : q = p
    · subst hq
      simp [List.filter_cons, hf, ih, List.filterMap_cons]
    · simp [List.filter_cons, hq, List.filterMap_cons, ih]

/-- C10: a provider whose snapshot fetch throws or whose body is empty is
silently omitted — removing it from the provider list leaves the response
unchanged — while every provider whose fetch parses is still in the
providers array, and the handler answers 200 regardless. -/
theorem realtime_failed_provider_omitted
    (s3get : String → Except String (Option String))
    (parse : String → Except String SnapshotData)
    (providers : List String) (p : String)
    (h : fetchProviderSnapshot s3get parse p = none) :
    (realtimeHandler s3get parse providers).statusCode = 200 ∧
    realtimeHandler s3get parse providers =
      realtimeHandler s3get parse (providers.filter (fun q => q ≠ p)) ∧
    (∀ q ∈ providers, ∀ v, fetchProviderSnapshot s3get parse q = some v →
      v ∈ (realtimeHandler s3get parse providers).providers) := by
  refine ⟨rfl, ?_, ?_⟩
  · simp only [realtimeHandler, RealtimeResponse.mk.injEq, true_and]
    exact filterMap_map_skip_none (fetchProviderSnapshot s3get parse) p h providers
  · intro q hq v hv
    simp only [realtimeHandler, List.mem_filterMap, List.mem_map]
    exact ⟨some v, ⟨q, hq, hv⟩, rfl⟩

/-- A snapshot getter whose get throws for provider bad and returns a
body for everyone else. -/
def exampleS3Get : String → Except String (Option String) := fun q =>
  if q == "bad" then Except.error "AccessDenied" else Except.ok (some "snapshot-body")

/-- A parse that succeeds on any body. -/
def exampleSnapshotParse : String → Except String SnapshotData := fun s =>
  Except.ok { payload := s }

/-- Witness for C10 at a concrete failing provider. -/
theorem realtime_failed_provider_omitted_witness :
    fetchProviderSnapshot exampleS3Get exampleSnapshotParse "bad" = none ∧
    ((realtimeHandler exampleS3Get exampleSnapshotParse ["good", "bad"]).statusCode = 200 ∧
     realtimeHandler exampleS3Get exampleSnapshotParse ["good", "bad"] =
       realtimeHandler exampleS3Get exampleSnapshotParse
         (["good", "bad"].filter (fun q => q ≠ "bad")) ∧
     (∀ q ∈ ["good", "bad"], ∀ v,
        fetchProviderSnapshot exampleS3Get exampleSnapshotParse q = some v →
        v ∈ (realtimeHandler exampleS3Get exampleSnapshotParse ["good", "bad"]).providers)) :=
  ⟨rfl, realtime_failed_provider_omitted exampleS3Get exampleSnapshotParse
    ["good", "bad"] "bad" rfl⟩
